import Mathlib

/-!
# Shallow embedding of `src/vendor_cleaning_script.py`

The script runs one SQL query (three CTE summaries over the tables
`vendor_invoice`, `purchases`, `purchase_prices`, `sales`, combined by two
left joins) into a pandas frame, then cleans it (`astype`, `fillna(0)`,
`str.strip()`), adds four derived metric columns, and writes the result back
as table `vendor_cleaned` with `if_exists="replace"`.

Modelling choices:
* Tables are lists of records; SQL numeric columns are modelled as exact
  integers (`Int`).  The grouping/join/filter logic of the query is
  independent of the numeric domain, and the `astype('float64')` cast on
  `Volume` is the identity in this exact model.
* Nullable results of the left joins are `Option` fields.
* `df.fillna(0)` acts on every column; on the object (string) column
  `VendorName` it produces the number `0`, so a cell of that column is a
  `CellVal` (number, string, or null).  `.str.strip()` maps non-string
  cells to null, as pandas does.
* The derived metric columns are float divisions; their values are modelled
  exactly as `FVal`: a finite rational, `+inf`, `-inf`, or `nan`, with
  IEEE-style division by zero (`x/0 = ±inf` for `x ≠ 0`, `0/0 = nan`).
-/

namespace Vendor

/-- A row of the `vendor_invoice` table (columns used by the query). -/
structure InvoiceRow where
  VendorNumber : Int
  Freight : Int
deriving DecidableEq

/-- A row of the `purchases` table (columns used by the query).
`VendorName` is nullable. -/
structure PurchaseRow where
  VendorNumber : Int
  VendorName : Option String
  Brand : Int
  Description : String
  PurchasePrice : Int
  Quantity : Int
  Dollars : Int
deriving DecidableEq

/-- A row of the `purchase_prices` reference table. -/
structure PriceRow where
  Brand : Int
  Volume : Int
  Price : Int
deriving DecidableEq

/-- A row of the `sales` table (columns used by the query). -/
structure SaleRow where
  VendorNo : Int
  Brand : Int
  SalesQuantity : Int
  SalesPrice : Int
  SalesDollars : Int
  ExciseTax : Int
deriving DecidableEq

/-- SQL `GROUP BY`: one output row per distinct key of `l`, carrying the
aggregate `agg` of the group (the sublist of `l` with that key). -/
def summarize {α κ β : Type} [DecidableEq κ] (l : List α) (key : α → κ) (agg : List α → β) :
    List (κ × β) :=
  (l.map key).dedup.map (fun k => (k, agg (l.filter (fun r => decide (key r = k)))))

/-- `Freight_summary`: `SELECT "VendorNumber", SUM("Freight") AS FreightCost
FROM vendor_invoice GROUP BY "VendorNumber"`. -/
def freightSummary (inv : List InvoiceRow) : List (Int × Int) :=
  summarize inv (fun i => i.VendorNumber) (fun g => (g.map (fun i => i.Freight)).sum)

/-- The four aggregate columns of `sales_summary`. -/
structure SalesAgg where
  TotalSalesQuantity : Int
  TotalSalesPrice : Int
  TotalSalesDollars : Int
  TotalExciseTax : Int
deriving DecidableEq

/-- `sales_summary`: group `sales` by `("VendorNo", "Brand")` and sum
`SalesQuantity`, `SalesPrice`, `SalesDollars`, `ExciseTax`. -/
def salesSummary (ss : List SaleRow) : List ((Int × Int) × SalesAgg) :=
  summarize ss (fun s => (s.VendorNo, s.Brand))
    (fun g => ⟨(g.map (fun s => s.SalesQuantity)).sum, (g.map (fun s => s.SalesPrice)).sum,
      (g.map (fun s => s.SalesDollars)).sum, (g.map (fun s => s.ExciseTax)).sum⟩)

/-- `FROM purchases p JOIN purchase_prices pp ON p."Brand" = pp."Brand"`:
one joined row per purchase row and matching reference row. -/
def joinPP (ps : List PurchaseRow) (pps : List PriceRow) : List (PurchaseRow × PriceRow) :=
  ps.flatMap (fun p => (pps.filter (fun w => decide (p.Brand = w.Brand))).map (fun w => (p, w)))

/-- `WHERE p."PurchasePrice" > 0`. -/
def pricePos (x : PurchaseRow × PriceRow) : Bool := decide (0 < x.1.PurchasePrice)

/-- The joined, filtered rows feeding the `Purchase_summary` `GROUP BY`. -/
def purchaseRows (ps : List PurchaseRow) (pps : List PriceRow) : List (PurchaseRow × PriceRow) :=
  (joinPP ps pps).filter pricePos

/-- The `GROUP BY` key of `Purchase_summary`:
`(p."VendorNumber", p."VendorName", p."Brand", p."Description",
p."PurchasePrice", pp."Volume", pp."Price")`. -/
structure PKey where
  VendorNumber : Int
  VendorName : Option String
  Brand : Int
  Description : String
  PurchasePrice : Int
  Volume : Int
  ActualPrice : Int
deriving DecidableEq

/-- Key of a joined purchase row. -/
def pkeyOf (x : PurchaseRow × PriceRow) : PKey :=
  ⟨x.1.VendorNumber, x.1.VendorName, x.1.Brand, x.1.Description, x.1.PurchasePrice,
    x.2.Volume, x.2.Price⟩

/-- The two aggregate columns of `Purchase_summary`. -/
structure PurchaseAgg where
  TotalPurchaseQuantity : Int
  TotalPurchaseDollars : Int
deriving DecidableEq

/-- `Purchase_summary`: join, filter, group, and sum `Quantity` and `Dollars`. -/
def purchaseSummary (ps : List PurchaseRow) (pps : List PriceRow) : List (PKey × PurchaseAgg) :=
  summarize (purchaseRows ps pps) pkeyOf
    (fun g => ⟨(g.map (fun x => x.1.Quantity)).sum, (g.map (fun x => x.1.Dollars)).sum⟩)

/-- A row of the `vendor_table` CTE (the frame the script reads).  Field names
follow the column names pandas sees: quoted SQL identifiers keep their case,
unquoted aliases are lowercased by PostgreSQL. -/
structure VRow where
  VendorNumber : Int
  VendorName : Option String
  Brand : Int
  Description : String
  PurchasePrice : Int
  actualprice : Int
  Volume : Int
  totalpurchasedollars : Int
  totalpurchasequantity : Int
  freightcost : Option Int
  totalsalesprice : Option Int
  totalsalesquantity : Option Int
  totalsalesdollars : Option Int
  totalexcisetax : Option Int
deriving DecidableEq

/-- A `Purchase_summary` row as it enters `vendor_table`, before the left
joins: sales and freight columns are still null. -/
def initRow (x : PKey × PurchaseAgg) : VRow :=
  ⟨x.1.VendorNumber, x.1.VendorName, x.1.Brand, x.1.Description, x.1.PurchasePrice,
    x.1.ActualPrice, x.1.Volume, x.2.TotalPurchaseDollars, x.2.TotalPurchaseQuantity,
    none, none, none, none, none⟩

/-- `LEFT JOIN sales_summary ss ON ps."VendorNumber" = ss."VendorNo" AND
ps."Brand" = ss."Brand"`: every left row with no match survives with nulls,
otherwise one row per match. -/
def leftJoinSales (rows : List VRow) (ssum : List ((Int × Int) × SalesAgg)) : List VRow :=
  rows.flatMap (fun r =>
    if (ssum.filter (fun s => decide (r.VendorNumber = s.1.1 ∧ r.Brand = s.1.2))).isEmpty then
      [r]
    else
      (ssum.filter (fun s => decide (r.VendorNumber = s.1.1 ∧ r.Brand = s.1.2))).map
        (fun s => { r with
          totalsalesprice := some s.2.TotalSalesPrice,
          totalsalesquantity := some s.2.TotalSalesQuantity,
          totalsalesdollars := some s.2.TotalSalesDollars,
          totalexcisetax := some s.2.TotalExciseTax }))

/-- `LEFT JOIN Freight_summary cs ON ps."VendorNumber" = cs."VendorNumber"`. -/
def leftJoinFreight (rows : List VRow) (fsum : List (Int × Int)) : List VRow :=
  rows.flatMap (fun r =>
    if (fsum.filter (fun f => decide (r.VendorNumber = f.1))).isEmpty then
      [r]
    else
      (fsum.filter (fun f => decide (r.VendorNumber = f.1))).map
        (fun f => { r with freightcost := some f.2 }))

/-- `ORDER BY ps.totalpurchasedollars DESC` (a stable sort; SQL fixes no
tie-break). -/
def byTPDdesc (a b : VRow) : Prop := b.totalpurchasedollars ≤ a.totalpurchasedollars

instance : DecidableRel byTPDdesc := fun a b => Int.decLe b.totalpurchasedollars a.totalpurchasedollars

/-- The `vendor_table` CTE, i.e. the frame `df` as read by `pd.read_sql`. -/
def vendorTable (ps : List PurchaseRow) (pps : List PriceRow) (ss : List SaleRow)
    (inv : List InvoiceRow) : List VRow :=
  List.insertionSort byTPDdesc
    (leftJoinFreight (leftJoinSales ((purchaseSummary ps pps).map initRow) (salesSummary ss))
      (freightSummary inv))

/-- A cell of the `VendorName` column after `fillna`: pandas object columns
can hold a number, a string, or null. -/
inductive CellVal where
  | num : Int → CellVal
  | str : String → CellVal
  | null : CellVal
deriving DecidableEq

/-- `df.fillna(0)` on the object column `VendorName`: nulls become the
number `0`, strings stay. -/
def fillnaName : Option String → CellVal
  | none => CellVal.num 0
  | some s => CellVal.str s

/-- `df.fillna(0)` on a nullable numeric column. -/
def fillna0 : Option Int → Int
  | none => 0
  | some n => n

/-- Strip leading and trailing whitespace from a string (pandas
`str.strip()` on a string cell). -/
def stripString (s : String) : String :=
  ⟨((s.data.dropWhile Char.isWhitespace).reverse.dropWhile Char.isWhitespace).reverse⟩

/-- `.str.strip()`: strings are trimmed of surrounding whitespace; pandas
maps non-string cells (numbers) to NaN, i.e. null. -/
def strStrip : CellVal → CellVal
  | CellVal.str s => CellVal.str (stripString s)
  | _ => CellVal.null

/-- The frame row after `df.fillna(0, inplace=True)`. -/
structure FRow where
  VendorNumber : Int
  VendorName : CellVal
  Brand : Int
  Description : String
  PurchasePrice : Int
  actualprice : Int
  Volume : Int
  totalpurchasedollars : Int
  totalpurchasequantity : Int
  freightcost : Int
  totalsalesprice : Int
  totalsalesquantity : Int
  totalsalesdollars : Int
  totalexcisetax : Int
deriving DecidableEq

/-- `df.fillna(0, inplace=True)`: every null in every column becomes `0`.
(The preceding `astype('float64')` on `Volume` is the identity here.) -/
def fillnaRow (w : VRow) : FRow :=
  ⟨w.VendorNumber, fillnaName w.VendorName, w.Brand, w.Description, w.PurchasePrice,
    w.actualprice, w.Volume, w.totalpurchasedollars, w.totalpurchasequantity,
    fillna0 w.freightcost, fillna0 w.totalsalesprice, fillna0 w.totalsalesquantity,
    fillna0 w.totalsalesdollars, fillna0 w.totalexcisetax⟩

/-- `df['VendorName'] = df['VendorName'].str.strip()`. -/
def stripRow (f : FRow) : FRow :=
  { f with VendorName := strStrip f.VendorName }

/-- Value of a float64 column: a finite rational, an infinity, or NaN. -/
inductive FVal where
  | fin : ℚ → FVal
  | inf : FVal
  | ninf : FVal
  | nan : FVal
deriving DecidableEq

/-- Whether a float value is finite (neither infinite nor NaN). -/
def FVal.isFinite : FVal → Bool
  | FVal.fin _ => true
  | _ => false

/-- Pandas column division `a / b` of (filled, hence finite) numeric columns:
IEEE semantics at zero divisors, exact quotient otherwise. -/
def fdiv (a b : Int) : FVal :=
  if b = 0 then (if a = 0 then FVal.nan else if 0 < a then FVal.inf else FVal.ninf)
  else FVal.fin ((a : ℚ) / (b : ℚ))

/-- `* 100` on a float column (used for `ProfitMargin`): infinities and NaN
are preserved. -/
def fmul100 : FVal → FVal
  | FVal.fin q => FVal.fin (q * 100)
  | v => v

/-- A row of the persisted `vendor_cleaned` table. -/
structure OutRow where
  VendorNumber : Int
  VendorName : CellVal
  Brand : Int
  Description : String
  PurchasePrice : Int
  actualprice : Int
  Volume : Int
  totalpurchasedollars : Int
  totalpurchasequantity : Int
  freightcost : Int
  totalsalesprice : Int
  totalsalesquantity : Int
  totalsalesdollars : Int
  totalexcisetax : Int
  GrossProfit : Int
  ProfitMargin : FVal
  StockTurnover : FVal
  salesToPurchase : FVal
deriving DecidableEq

/-- The four added columns: `GrossProfit`, `ProfitMargin`, `StockTurnover`
and the sales-to-purchase quotient column (named `SalesToPurchase` followed
by `Rat` `io` in the script). -/
def withMetrics (f : FRow) : OutRow :=
  ⟨f.VendorNumber, f.VendorName, f.Brand, f.Description, f.PurchasePrice, f.actualprice,
    f.Volume, f.totalpurchasedollars, f.totalpurchasequantity, f.freightcost,
    f.totalsalesprice, f.totalsalesquantity, f.totalsalesdollars, f.totalexcisetax,
    f.totalsalesdollars - f.totalpurchasedollars,
    fmul100 (fdiv (f.totalsalesdollars - f.totalpurchasedollars) f.totalsalesdollars),
    fdiv f.totalsalesquantity f.totalpurchasequantity,
    fdiv f.totalsalesdollars f.totalpurchasedollars⟩

/-- The whole per-row cleaning pass of the script, in source order. -/
def transformRow (w : VRow) : OutRow :=
  withMetrics (stripRow (fillnaRow w))

/-- The full table the script writes to `vendor_cleaned`. -/
def vendorCleaned (ps : List PurchaseRow) (pps : List PriceRow) (ss : List SaleRow)
    (inv : List InvoiceRow) : List OutRow :=
  (vendorTable ps pps ss inv).map transformRow

/-- The relational store: the four source tables and the destination table
(absent until first written). -/
structure Database where
  vendor_invoice : List InvoiceRow
  purchases : List PurchaseRow
  purchase_prices : List PriceRow
  sales : List SaleRow
  vendor_cleaned : Option (List OutRow)
deriving DecidableEq

/-- One run of the script: read the four source tables, compute the cleaned
table, and write it with `if_exists="replace"`. -/
def runJob (db : Database) : Database :=
  { db with
    vendor_cleaned := some (vendorCleaned db.purchases db.purchase_prices db.sales db.vendor_invoice) }

/-! ## Generic list lemmas -/

lemma sum_map_add {α : Type} (l : List α) (f g : α → Int) :
    (l.map (fun a => f a + g a)).sum = (l.map f).sum + (l.map g).sum := by
  induction l with
  | nil => simp
  | cons a t ih => simp only [List.map_cons, List.sum_cons, ih]; ring

lemma sum_map_const {α : Type} (l : List α) (c : Int) :
    (l.map (fun _ => c)).sum = (l.length : Int) * c := by
  induction l with
  | nil => simp
  | cons a t ih => simp only [List.map_cons, List.sum_cons, List.length_cons, ih]; push_cast; ring

lemma sum_if_mem {κ : Type} [DecidableEq κ] (ks : List κ) (a : κ) (c : Int) (hnd : ks.Nodup) :
    (ks.map (fun k => if a = k then c else 0)).sum = if a ∈ ks then c else 0 := by
  induction ks with
  | nil => simp
  | cons b t ih =>
    simp only [List.nodup_cons] at hnd
    by_cases h : a = b
    · subst h
      have : a ∉ t := hnd.1
      simp [ih hnd.2, this]
    · simp [ih hnd.2, h]

lemma sum_flatMapI {α β : Type} (l : List α) (g : α → List β) (f : β → Int) :
    ((l.flatMap g).map f).sum = (l.map (fun a => ((g a).map f).sum)).sum := by
  induction l with
  | nil => simp
  | cons a t ih => simp [List.flatMap_cons, ih]

lemma flatMap_single {α β : Type} (l : List α) (h : α → β) :
    (l.flatMap (fun a => [h a])) = l.map h := by
  induction l with
  | nil => simp
  | cons a t ih => simp [List.flatMap_cons, ih]

lemma filter_const {α : Type} (l : List α) (c : Bool) :
    l.filter (fun _ => c) = if c then l else [] := by
  cases c <;> simp

lemma sum_filter_if {α : Type} (l : List α) (p : α → Bool) (f : α → Int) :
    ((l.filter p).map f).sum = (l.map (fun a => if p a then f a else 0)).sum := by
  induction l with
  | nil => simp
  | cons a t ih =>
    by_cases h : p a <;> simp [List.filter_cons, h, ih]

/-- Partitioning a sum over `l` into its groups: summing a per-group sum over
the (distinct) keys selected by `Q` equals summing over the rows whose key
satisfies `Q`. -/
lemma sum_filter_groups {α κ : Type} [DecidableEq κ] (key : α → κ) (f : α → Int) (Q : κ → Bool)
    (l : List α) (ks : List κ) (hnd : ks.Nodup) (hmem : ∀ r ∈ l, key r ∈ ks) :
    ((ks.filter Q).map (fun k => ((l.filter (fun r => decide (key r = k))).map f).sum)).sum =
      ((l.filter (fun r => Q (key r))).map f).sum := by
  induction l with
  | nil => simp
  | cons a t ih =>
    have hat : ∀ r ∈ t, key r ∈ ks := fun r hr => hmem r (List.mem_cons_of_mem a hr)
    have hin : key a ∈ ks := hmem a (List.mem_cons_self a t)
    have h1 : ((ks.filter Q).map
        (fun k => (((a :: t).filter (fun r => decide (key r = k))).map f).sum)).sum =
        ((ks.filter Q).map (fun k => if key a = k then f a else 0)).sum +
          ((ks.filter Q).map
            (fun k => ((t.filter (fun r => decide (key r = k))).map f).sum)).sum := by
      rw [← sum_map_add]
      refine congrArg List.sum (List.map_congr_left (fun k _ => ?_))
      by_cases h : key a = k <;> simp [List.filter_cons, h]
    rw [h1, ih hat, sum_if_mem _ _ _ (hnd.filter Q)]
    by_cases hq : Q (key a)
    · simp [List.filter_cons, hq, List.mem_filter, hin]
    · simp [List.filter_cons, hq, List.mem_filter, hin]

/-! ## Characterization of `summarize` -/

lemma nodup_filter_key {κ : Type} [DecidableEq κ] (ks : List κ) (hnd : ks.Nodup) (k0 : κ) :
    ks.filter (fun k => decide (k = k0)) = if k0 ∈ ks then [k0] else [] := by
  induction ks with
  | nil => simp
  | cons b t ih =>
    simp only [List.nodup_cons] at hnd
    by_cases h : b = k0
    · subst h
      have hnil : t.filter (fun k => decide (k = b)) = [] :=
        List.filter_eq_nil_iff.mpr (fun a ha => by
          simp only [decide_eq_true_eq]
          exact fun hab => hnd.1 (hab ▸ ha))
      simp [List.filter_cons, hnil]
    · have hkb : k0 ≠ b := fun hk => h hk.symm
      by_cases hm : k0 ∈ t
      · simp [List.filter_cons, h, ih hnd.2, hm, List.mem_cons, hkb]
      · simp [List.filter_cons, h, ih hnd.2, hm, List.mem_cons, hkb]

lemma keys_eq_dedup {α κ β : Type} [DecidableEq κ] (l : List α) (key : α → κ) (agg : List α → β) :
    (summarize l key agg).map Prod.fst = (l.map key).dedup := by
  simp [summarize, List.map_map, Function.comp_def]

/-- Filtering a `summarize` result on its key yields the empty list or the
singleton group row for that key. -/
lemma filter_summarize {α κ β : Type} [DecidableEq κ] (l : List α) (key : α → κ)
    (agg : List α → β) (k0 : κ) :
    (summarize l key agg).filter (fun x => decide (x.1 = k0)) =
      if k0 ∈ l.map key then [(k0, agg (l.filter (fun r => decide (key r = k0))))] else [] := by
  unfold summarize
  rw [List.filter_map]
  have hcomp : ((fun x : κ × β => decide (x.1 = k0)) ∘
      (fun k => (k, agg (l.filter (fun r => decide (key r = k)))))) =
      (fun k => decide (k = k0)) := rfl
  rw [hcomp, nodup_filter_key _ (List.nodup_dedup _) k0]
  by_cases h : k0 ∈ (l.map key).dedup
  · have h' : k0 ∈ l.map key := List.mem_dedup.mp h
    simp [h, h']
  · have h' : k0 ∉ l.map key := fun hm => h (List.mem_dedup.mpr hm)
    simp [h, h']

lemma mem_map_key_iff_filter {α κ : Type} [DecidableEq κ] (l : List α) (key : α → κ) (k0 : κ) :
    k0 ∈ l.map key ↔ l.filter (fun r => decide (key r = k0)) ≠ [] := by
  rw [Ne, List.filter_eq_nil_iff]
  simp only [List.mem_map, decide_eq_true_eq, not_forall]
  constructor
  · rintro ⟨r, hr, hk⟩
    exact ⟨r, hr, by simp [hk]⟩
  · rintro ⟨r, hr, hk⟩
    exact ⟨r, hr, by simpa using hk⟩

/-! ## Eliminating the left joins

Both summaries have pairwise-distinct keys, so each left join matches at
most one row: the joins are equivalent to per-row updates. -/

/-- The `sales` rows matching a given `(VendorNumber, Brand)` pair. -/
def salesFor (ss : List SaleRow) (v b : Int) : List SaleRow :=
  ss.filter (fun s => decide (s.VendorNo = v ∧ s.Brand = b))

/-- Effect of the sales left join on one `vendor_table` row. -/
def updSales (ss : List SaleRow) (r : VRow) : VRow :=
  if (salesFor ss r.VendorNumber r.Brand).isEmpty then r
  else
    { r with
      totalsalesprice :=
        some (((salesFor ss r.VendorNumber r.Brand).map (fun s => s.SalesPrice)).sum),
      totalsalesquantity :=
        some (((salesFor ss r.VendorNumber r.Brand).map (fun s => s.SalesQuantity)).sum),
      totalsalesdollars :=
        some (((salesFor ss r.VendorNumber r.Brand).map (fun s => s.SalesDollars)).sum),
      totalexcisetax :=
        some (((salesFor ss r.VendorNumber r.Brand).map (fun s => s.ExciseTax)).sum) }

/-- The `vendor_invoice` rows of a given vendor. -/
def freightFor (inv : List InvoiceRow) (v : Int) : List InvoiceRow :=
  inv.filter (fun i => decide (i.VendorNumber = v))

/-- Effect of the freight left join on one `vendor_table` row. -/
def updFreight (inv : List InvoiceRow) (r : VRow) : VRow :=
  if (freightFor inv r.VendorNumber).isEmpty then r
  else
    { r with
      freightcost := some (((freightFor inv r.VendorNumber).map (fun i => i.Freight)).sum) }

lemma leftJoinSales_eq (rows : List VRow) (ss : List SaleRow) :
    leftJoinSales rows (salesSummary ss) = rows.map (updSales ss) := by
  rw [leftJoinSales, ← flatMap_single rows (updSales ss)]
  refine congrArg rows.flatMap (funext (fun r => ?_))
  have hpred : (fun s : (Int × Int) × SalesAgg =>
      decide (r.VendorNumber = s.1.1 ∧ r.Brand = s.1.2)) =
      (fun s : (Int × Int) × SalesAgg => decide (s.1 = (r.VendorNumber, r.Brand))) := by
    funext s
    apply decide_eq_decide.mpr
    constructor
    · rintro ⟨h1, h2⟩
      exact Prod.ext h1.symm h2.symm
    · intro h
      exact ⟨(congrArg Prod.fst h).symm, (congrArg Prod.snd h).symm⟩
  rw [hpred]
  unfold salesSummary
  rw [filter_summarize ss (fun s => (s.VendorNo, s.Brand)) _ (r.VendorNumber, r.Brand)]
  have hgrp : ss.filter
      (fun s => decide ((s.VendorNo, s.Brand) = (r.VendorNumber, r.Brand))) =
      salesFor ss r.VendorNumber r.Brand := by
    unfold salesFor
    refine List.filter_congr (fun s _ => ?_)
    simp [Prod.mk.injEq]
  have hmem := mem_map_key_iff_filter ss (fun s => (s.VendorNo, s.Brand))
    (r.VendorNumber, r.Brand)
  rw [hgrp] at hmem
  by_cases hm : (r.VendorNumber, r.Brand) ∈ ss.map (fun s => (s.VendorNo, s.Brand))
  · have hne : salesFor ss r.VendorNumber r.Brand ≠ [] := hmem.mp hm
    rw [if_pos hm, hgrp]
    simp only [List.isEmpty_cons, List.map_cons, List.map_nil, if_false, Bool.false_eq_true]
    unfold updSales
    rw [if_neg (by simpa using hne)]
  · have hnil : salesFor ss r.VendorNumber r.Brand = [] := by
      by_contra hne
      exact hm (hmem.mpr hne)
    rw [if_neg hm]
    simp only [List.isEmpty_nil, if_true]
    unfold updSales
    rw [if_pos (by simp [hnil])]

lemma leftJoinFreight_eq (rows : List VRow) (inv : List InvoiceRow) :
    leftJoinFreight rows (freightSummary inv) = rows.map (updFreight inv) := by
  rw [leftJoinFreight, ← flatMap_single rows (updFreight inv)]
  refine congrArg rows.flatMap (funext (fun r => ?_))
  have hpred : (fun f : Int × Int => decide (r.VendorNumber = f.1)) =
      (fun f : Int × Int => decide (f.1 = r.VendorNumber)) := by
    funext f
    simp [eq_comm]
  rw [hpred]
  unfold freightSummary
  rw [filter_summarize inv (fun i => i.VendorNumber) _ r.VendorNumber]
  have hmem := mem_map_key_iff_filter inv (fun i => i.VendorNumber) r.VendorNumber
  have hgrp : inv.filter (fun i => decide (i.VendorNumber = r.VendorNumber)) =
      freightFor inv r.VendorNumber := rfl
  rw [hgrp] at hmem
  by_cases hm : r.VendorNumber ∈ inv.map (fun i => i.VendorNumber)
  · have hne : freightFor inv r.VendorNumber ≠ [] := hmem.mp hm
    rw [if_pos hm, hgrp]
    simp only [List.isEmpty_cons, List.map_cons, List.map_nil, if_false, Bool.false_eq_true]
    unfold updFreight
    rw [if_neg (by simpa using hne)]
  · have hnil : freightFor inv r.VendorNumber = [] := by
      by_contra hne
      exact hm (hmem.mpr hne)
    rw [if_neg hm]
    simp only [List.isEmpty_nil, if_true]
    unfold updFreight
    rw [if_pos (by simp [hnil])]

/-- One `vendor_table` row per `Purchase_summary` row. -/
def buildRow (ss : List SaleRow) (inv : List InvoiceRow) (x : PKey × PurchaseAgg) : VRow :=
  updFreight inv (updSales ss (initRow x))

lemma vendorTable_eq (ps : List PurchaseRow) (pps : List PriceRow) (ss : List SaleRow)
    (inv : List InvoiceRow) :
    vendorTable ps pps ss inv =
      List.insertionSort byTPDdesc ((purchaseSummary ps pps).map (buildRow ss inv)) := by
  rw [vendorTable, leftJoinSales_eq, leftJoinFreight_eq, List.map_map, List.map_map]
  rfl

lemma mem_vendorCleaned_iff (ps : List PurchaseRow) (pps : List PriceRow) (ss : List SaleRow)
    (inv : List InvoiceRow) (r : OutRow) :
    r ∈ vendorCleaned ps pps ss inv ↔
      ∃ x ∈ purchaseSummary ps pps, transformRow (buildRow ss inv x) = r := by
  rw [vendorCleaned, vendorTable_eq]
  simp only [List.mem_map, List.mem_insertionSort, List.map_map]
  constructor
  · rintro ⟨w, ⟨x, hx, hw⟩, ht⟩
    exact ⟨x, hx, by rw [hw, ht]⟩
  · rintro ⟨x, hx, ht⟩
    exact ⟨buildRow ss inv x, ⟨x, hx, rfl⟩, ht⟩

/-! ## Field-level description of an output row -/

lemma updSales_VendorNumber (ss : List SaleRow) (r : VRow) :
    (updSales ss r).VendorNumber = r.VendorNumber := by
  unfold updSales; split <;> rfl

lemma updSales_Brand (ss : List SaleRow) (r : VRow) :
    (updSales ss r).Brand = r.Brand := by
  unfold updSales; split <;> rfl

lemma updSales_VendorName (ss : List SaleRow) (r : VRow) :
    (updSales ss r).VendorName = r.VendorName := by
  unfold updSales; split <;> rfl

lemma updSales_tpd (ss : List SaleRow) (r : VRow) :
    (updSales ss r).totalpurchasedollars = r.totalpurchasedollars := by
  unfold updSales; split <;> rfl

lemma updSales_tpq (ss : List SaleRow) (r : VRow) :
    (updSales ss r).totalpurchasequantity = r.totalpurchasequantity := by
  unfold updSales; split <;> rfl

lemma updSales_freightcost (ss : List SaleRow) (r : VRow) :
    (updSales ss r).freightcost = r.freightcost := by
  unfold updSales; split <;> rfl

lemma updFreight_VendorNumber (inv : List InvoiceRow) (r : VRow) :
    (updFreight inv r).VendorNumber = r.VendorNumber := by
  unfold updFreight; split <;> rfl

lemma updFreight_Brand (inv : List InvoiceRow) (r : VRow) :
    (updFreight inv r).Brand = r.Brand := by
  unfold updFreight; split <;> rfl

lemma updFreight_VendorName (inv : List InvoiceRow) (r : VRow) :
    (updFreight inv r).VendorName = r.VendorName := by
  unfold updFreight; split <;> rfl

lemma updFreight_tpd (inv : List InvoiceRow) (r : VRow) :
    (updFreight inv r).totalpurchasedollars = r.totalpurchasedollars := by
  unfold updFreight; split <;> rfl

lemma updFreight_tpq (inv : List InvoiceRow) (r : VRow) :
    (updFreight inv r).totalpurchasequantity = r.totalpurchasequantity := by
  unfold updFreight; split <;> rfl

lemma updFreight_tsp (inv : List InvoiceRow) (r : VRow) :
    (updFreight inv r).totalsalesprice = r.totalsalesprice := by
  unfold updFreight; split <;> rfl

lemma updFreight_tsq (inv : List InvoiceRow) (r : VRow) :
    (updFreight inv r).totalsalesquantity = r.totalsalesquantity := by
  unfold updFreight; split <;> rfl

lemma updFreight_tsd (inv : List InvoiceRow) (r : VRow) :
    (updFreight inv r).totalsalesdollars = r.totalsalesdollars := by
  unfold updFreight; split <;> rfl

lemma updFreight_tax (inv : List InvoiceRow) (r : VRow) :
    (updFreight inv r).totalexcisetax = r.totalexcisetax := by
  unfold updFreight; split <;> rfl

lemma out_VendorNumber (ss : List SaleRow) (inv : List InvoiceRow) (x : PKey × PurchaseAgg) :
    (transformRow (buildRow ss inv x)).VendorNumber = x.1.VendorNumber := by
  show (buildRow ss inv x).VendorNumber = x.1.VendorNumber
  rw [buildRow, updFreight_VendorNumber, updSales_VendorNumber]
  rfl

lemma out_Brand (ss : List SaleRow) (inv : List InvoiceRow) (x : PKey × PurchaseAgg) :
    (transformRow (buildRow ss inv x)).Brand = x.1.Brand := by
  show (buildRow ss inv x).Brand = x.1.Brand
  rw [buildRow, updFreight_Brand, updSales_Brand]
  rfl

lemma out_VendorName (ss : List SaleRow) (inv : List InvoiceRow) (x : PKey × PurchaseAgg) :
    (transformRow (buildRow ss inv x)).VendorName = strStrip (fillnaName x.1.VendorName) := by
  show strStrip (fillnaName (buildRow ss inv x).VendorName) = _
  rw [buildRow, updFreight_VendorName, updSales_VendorName]
  rfl

lemma out_tpd (ss : List SaleRow) (inv : List InvoiceRow) (x : PKey × PurchaseAgg) :
    (transformRow (buildRow ss inv x)).totalpurchasedollars = x.2.TotalPurchaseDollars := by
  show (buildRow ss inv x).totalpurchasedollars = x.2.TotalPurchaseDollars
  rw [buildRow, updFreight_tpd, updSales_tpd]
  rfl

lemma out_tpq (ss : List SaleRow) (inv : List InvoiceRow) (x : PKey × PurchaseAgg) :
    (transformRow (buildRow ss inv x)).totalpurchasequantity = x.2.TotalPurchaseQuantity := by
  show (buildRow ss inv x).totalpurchasequantity = x.2.TotalPurchaseQuantity
  rw [buildRow, updFreight_tpq, updSales_tpq]
  rfl

lemma out_freightcost (ss : List SaleRow) (inv : List InvoiceRow) (x : PKey × PurchaseAgg) :
    (transformRow (buildRow ss inv x)).freightcost =
      ((freightFor inv x.1.VendorNumber).map (fun i => i.Freight)).sum := by
  show fillna0 (buildRow ss inv x).freightcost = _
  rw [buildRow]
  unfold updFreight
  rw [updSales_VendorNumber]
  have hv : (initRow x).VendorNumber = x.1.VendorNumber := rfl
  rw [hv]
  split
  · rename_i h
    rw [List.isEmpty_eq_true] at h
    rw [updSales_freightcost, h]
    rfl
  · rfl

lemma out_tsq (ss : List SaleRow) (inv : List InvoiceRow) (x : PKey × PurchaseAgg) :
    (transformRow (buildRow ss inv x)).totalsalesquantity =
      ((salesFor ss x.1.VendorNumber x.1.Brand).map (fun s => s.SalesQuantity)).sum := by
  show fillna0 (buildRow ss inv x).totalsalesquantity = _
  rw [buildRow, updFreight_tsq]
  unfold updSales
  have hv : (initRow x).VendorNumber = x.1.VendorNumber := rfl
  have hb : (initRow x).Brand = x.1.Brand := rfl
  rw [hv, hb]
  split
  · rename_i h
    rw [List.isEmpty_eq_true] at h
    rw [h]
    rfl
  · rfl

lemma out_tsp (ss : List SaleRow) (inv : List InvoiceRow) (x : PKey × PurchaseAgg) :
    (transformRow (buildRow ss inv x)).totalsalesprice =
      ((salesFor ss x.1.VendorNumber x.1.Brand).map (fun s => s.SalesPrice)).sum := by
  show fillna0 (buildRow ss inv x).totalsalesprice = _
  rw [buildRow, updFreight_tsp]
  unfold updSales
  have hv : (initRow x).VendorNumber = x.1.VendorNumber := rfl
  have hb : (initRow x).Brand = x.1.Brand := rfl
  rw [hv, hb]
  split
  · rename_i h
    rw [List.isEmpty_eq_true] at h
    rw [h]
    rfl
  · rfl

lemma out_tsd (ss : List SaleRow) (inv : List InvoiceRow) (x : PKey × PurchaseAgg) :
    (transformRow (buildRow ss inv x)).totalsalesdollars =
      ((salesFor ss x.1.VendorNumber x.1.Brand).map (fun s => s.SalesDollars)).sum := by
  show fillna0 (buildRow ss inv x).totalsalesdollars = _
  rw [buildRow, updFreight_tsd]
  unfold updSales
  have hv : (initRow x).VendorNumber = x.1.VendorNumber := rfl
  have hb : (initRow x).Brand = x.1.Brand := rfl
  rw [hv, hb]
  split
  · rename_i h
    rw [List.isEmpty_eq_true] at h
    rw [h]
    rfl
  · rfl

lemma out_tax (ss : List SaleRow) (inv : List InvoiceRow) (x : PKey × PurchaseAgg) :
    (transformRow (buildRow ss inv x)).totalexcisetax =
      ((salesFor ss x.1.VendorNumber x.1.Brand).map (fun s => s.ExciseTax)).sum := by
  show fillna0 (buildRow ss inv x).totalexcisetax = _
  rw [buildRow, updFreight_tax]
  unfold updSales
  have hv : (initRow x).VendorNumber = x.1.VendorNumber := rfl
  have hb : (initRow x).Brand = x.1.Brand := rfl
  rw [hv, hb]
  split
  · rename_i h
    rw [List.isEmpty_eq_true] at h
    rw [h]
    rfl
  · rfl

lemma transformRow_GrossProfit (w : VRow) :
    (transformRow w).GrossProfit =
      (transformRow w).totalsalesdollars - (transformRow w).totalpurchasedollars := rfl

lemma transformRow_ProfitMargin (w : VRow) :
    (transformRow w).ProfitMargin =
      fmul100 (fdiv (transformRow w).GrossProfit (transformRow w).totalsalesdollars) := rfl

lemma transformRow_StockTurnover (w : VRow) :
    (transformRow w).StockTurnover =
      fdiv (transformRow w).totalsalesquantity (transformRow w).totalpurchasequantity := rfl

lemma transformRow_sptq (w : VRow) :
    (transformRow w).salesToPurchase =
      fdiv (transformRow w).totalsalesdollars (transformRow w).totalpurchasedollars := rfl

/-! ## Transporting per-(vendor, brand) sums through the pipeline -/

lemma summarize_proj {α κ β γ : Type} [DecidableEq κ] (l : List α) (key : α → κ)
    (agg : List α → β) (prj : β → γ) (Q : κ → Bool) :
    ((summarize l key agg).filter (fun x => Q x.1)).map (fun x => prj x.2) =
      ((summarize l key (fun g => prj (agg g))).filter (fun x => Q x.1)).map (fun x => x.2) := by
  unfold summarize
  rw [List.filter_map, List.filter_map, List.map_map, List.map_map]
  rfl

lemma sum_map_filter_eq_zero {α β : Type} (l : List α) (q : α → Bool) (g : α → β)
    [AddCommMonoid β] (h : ∀ a ∈ l, ¬ q a) : ((l.filter q).map g).sum = 0 := by
  rw [List.filter_eq_nil_iff.mpr h]
  rfl

lemma sum_summarize {α κ : Type} [DecidableEq κ] (l : List α) (key : α → κ) (f : α → Int)
    (Q : κ → Bool) :
    (((summarize l key (fun g => (g.map f).sum)).filter (fun x => Q x.1)).map
      (fun x => x.2)).sum = ((l.filter (fun r => Q (key r))).map f).sum := by
  unfold summarize
  rw [List.filter_map, List.map_map]
  exact sum_filter_groups key f Q l _ (List.nodup_dedup _)
    (fun r hr => List.mem_dedup.mpr (List.mem_map_of_mem key hr))

lemma sum_purchaseRows_key (ps : List PurchaseRow) (pps : List PriceRow) (v b : Int)
    (f : PurchaseRow → Int) :
    (((purchaseRows ps pps).filter
        (fun rr => decide ((pkeyOf rr).VendorNumber = v ∧ (pkeyOf rr).Brand = b))).map
      (fun rr => f rr.1)).sum =
      ((pps.filter (fun w => decide (w.Brand = b))).length : Int) *
        ((ps.filter (fun p =>
          decide (p.VendorNumber = v ∧ p.Brand = b ∧ 0 < p.PurchasePrice))).map f).sum := by
  unfold purchaseRows joinPP
  rw [List.filter_filter, List.filter_flatMap, sum_flatMapI, sum_filter_if,
    ← List.sum_map_mul_left]
  refine congrArg List.sum (List.map_congr_left (fun p _ => ?_))
  by_cases hq : p.VendorNumber = v ∧ p.Brand = b ∧ 0 < p.PurchasePrice
  · obtain ⟨h1, h2, h3⟩ := hq
    rw [List.filter_map, List.map_map]
    simp only [Function.comp_def, pkeyOf, pricePos, h1, h2, h3, decide_True, Bool.and_self,
      List.filter_true, decide_eq_true_eq]
    have hlen : pps.filter (fun w => decide (b = w.Brand)) =
        pps.filter (fun w => decide (w.Brand = b)) :=
      List.filter_congr (fun w _ => by simp [eq_comm])
    simp only [hlen, sum_map_const]
    simp [h1, h2, h3]
  · have hq' : ¬((p.VendorNumber = v ∧ p.Brand = b) ∧ 0 < p.PurchasePrice) := by
      rw [and_assoc]; exact hq
    rw [List.filter_map]
    simp only [Function.comp_def, pkeyOf, pricePos]
    simp [hq', hq, and_assoc]
    refine sum_map_filter_eq_zero _ _ _ (fun a _ => ?_)
    simp only [Bool.and_eq_true, decide_eq_true_eq]
    tauto

lemma sum_vendorCleaned (ps : List PurchaseRow) (pps : List PriceRow) (ss : List SaleRow)
    (inv : List InvoiceRow) (v b : Int) (h : OutRow → Int) (e : PKey × PurchaseAgg → Int)
    (he : ∀ x, h (transformRow (buildRow ss inv x)) = e x) :
    (((vendorCleaned ps pps ss inv).filter
        (fun r => decide (r.VendorNumber = v ∧ r.Brand = b))).map h).sum =
      (((purchaseSummary ps pps).filter
        (fun x => decide (x.1.VendorNumber = v ∧ x.1.Brand = b))).map e).sum := by
  rw [vendorCleaned, vendorTable_eq, List.filter_map, List.map_map]
  have hp := (((List.perm_insertionSort byTPDdesc
      ((purchaseSummary ps pps).map (buildRow ss inv))).filter
      ((fun r : OutRow => decide (r.VendorNumber = v ∧ r.Brand = b)) ∘ transformRow)).map
      (h ∘ transformRow)).sum_eq
  rw [hp, List.filter_map, List.map_map]
  have h2 : (purchaseSummary ps pps).filter
      (((fun r : OutRow => decide (r.VendorNumber = v ∧ r.Brand = b)) ∘ transformRow) ∘
        buildRow ss inv) =
      (purchaseSummary ps pps).filter
        (fun x => decide (x.1.VendorNumber = v ∧ x.1.Brand = b)) := by
    refine List.filter_congr (fun x _ => ?_)
    show decide ((transformRow (buildRow ss inv x)).VendorNumber = v ∧
      (transformRow (buildRow ss inv x)).Brand = b) = _
    rw [out_VendorNumber, out_Brand]
  rw [h2]
  refine congrArg List.sum (List.map_congr_left (fun x _ => ?_))
  show h (transformRow (buildRow ss inv x)) = e x
  exact he x

/-- Sum of `totalpurchasedollars` over all output rows of a `(V, B)` pair:
each raw dollar amount is counted once per `purchase_prices` row of the
brand. -/
lemma sum_vc_dollars (ps : List PurchaseRow) (pps : List PriceRow) (ss : List SaleRow)
    (inv : List InvoiceRow) (v b : Int) :
    (((vendorCleaned ps pps ss inv).filter
        (fun r => decide (r.VendorNumber = v ∧ r.Brand = b))).map
      (fun r => r.totalpurchasedollars)).sum =
      ((pps.filter (fun w => decide (w.Brand = b))).length : Int) *
        ((ps.filter (fun p =>
          decide (p.VendorNumber = v ∧ p.Brand = b ∧ 0 < p.PurchasePrice))).map
          (fun p => p.Dollars)).sum := by
  rw [sum_vendorCleaned ps pps ss inv v b _ (fun x => x.2.TotalPurchaseDollars)
    (fun x => out_tpd ss inv x)]
  unfold purchaseSummary
  have ha : ((summarize (purchaseRows ps pps) pkeyOf
      (fun g => (⟨(g.map (fun x => x.1.Quantity)).sum,
        (g.map (fun x => x.1.Dollars)).sum⟩ : PurchaseAgg))).filter
      (fun x => decide (x.1.VendorNumber = v ∧ x.1.Brand = b))).map
      (fun x => x.2.TotalPurchaseDollars) =
      ((summarize (purchaseRows ps pps) pkeyOf
        (fun g => (g.map (fun y => y.1.Dollars)).sum)).filter
        (fun x => decide (x.1.VendorNumber = v ∧ x.1.Brand = b))).map (fun x => x.2) :=
    summarize_proj (purchaseRows ps pps) pkeyOf
      (fun g => (⟨(g.map (fun x => x.1.Quantity)).sum,
        (g.map (fun x => x.1.Dollars)).sum⟩ : PurchaseAgg))
      (fun a => a.TotalPurchaseDollars)
      (fun k => decide (k.VendorNumber = v ∧ k.Brand = b))
  rw [ha]
  have hb : (((summarize (purchaseRows ps pps) pkeyOf
      (fun g => (g.map (fun y => y.1.Dollars)).sum)).filter
      (fun x => decide (x.1.VendorNumber = v ∧ x.1.Brand = b))).map (fun x => x.2)).sum =
      (((purchaseRows ps pps).filter
        (fun rr => decide ((pkeyOf rr).VendorNumber = v ∧ (pkeyOf rr).Brand = b))).map
        (fun rr => rr.1.Dollars)).sum :=
    sum_summarize (purchaseRows ps pps) pkeyOf (fun y => y.1.Dollars)
      (fun k => decide (k.VendorNumber = v ∧ k.Brand = b))
  rw [hb]
  exact sum_purchaseRows_key ps pps v b (fun p => p.Dollars)

/-- Sum of `totalpurchasequantity` over all output rows of a `(V, B)` pair. -/
lemma sum_vc_quantity (ps : List PurchaseRow) (pps : List PriceRow) (ss : List SaleRow)
    (inv : List InvoiceRow) (v b : Int) :
    (((vendorCleaned ps pps ss inv).filter
        (fun r => decide (r.VendorNumber = v ∧ r.Brand = b))).map
      (fun r => r.totalpurchasequantity)).sum =
      ((pps.filter (fun w => decide (w.Brand = b))).length : Int) *
        ((ps.filter (fun p =>
          decide (p.VendorNumber = v ∧ p.Brand = b ∧ 0 < p.PurchasePrice))).map
          (fun p => p.Quantity)).sum := by
  rw [sum_vendorCleaned ps pps ss inv v b _ (fun x => x.2.TotalPurchaseQuantity)
    (fun x => out_tpq ss inv x)]
  unfold purchaseSummary
  have ha : ((summarize (purchaseRows ps pps) pkeyOf
      (fun g => (⟨(g.map (fun x => x.1.Quantity)).sum,
        (g.map (fun x => x.1.Dollars)).sum⟩ : PurchaseAgg))).filter
      (fun x => decide (x.1.VendorNumber = v ∧ x.1.Brand = b))).map
      (fun x => x.2.TotalPurchaseQuantity) =
      ((summarize (purchaseRows ps pps) pkeyOf
        (fun g => (g.map (fun y => y.1.Quantity)).sum)).filter
        (fun x => decide (x.1.VendorNumber = v ∧ x.1.Brand = b))).map (fun x => x.2) :=
    summarize_proj (purchaseRows ps pps) pkeyOf
      (fun g => (⟨(g.map (fun x => x.1.Quantity)).sum,
        (g.map (fun x => x.1.Dollars)).sum⟩ : PurchaseAgg))
      (fun a => a.TotalPurchaseQuantity)
      (fun k => decide (k.VendorNumber = v ∧ k.Brand = b))
  rw [ha]
  have hb : (((summarize (purchaseRows ps pps) pkeyOf
      (fun g => (g.map (fun y => y.1.Quantity)).sum)).filter
      (fun x => decide (x.1.VendorNumber = v ∧ x.1.Brand = b))).map (fun x => x.2)).sum =
      (((purchaseRows ps pps).filter
        (fun rr => decide ((pkeyOf rr).VendorNumber = v ∧ (pkeyOf rr).Brand = b))).map
        (fun rr => rr.1.Quantity)).sum :=
    sum_summarize (purchaseRows ps pps) pkeyOf (fun y => y.1.Quantity)
      (fun k => decide (k.VendorNumber = v ∧ k.Brand = b))
  rw [hb]
  exact sum_purchaseRows_key ps pps v b (fun p => p.Quantity)

/-! ## Membership lemmas -/

lemma mem_purchaseRows_origin (ps : List PurchaseRow) (pps : List PriceRow)
    (rr : PurchaseRow × PriceRow) (h : rr ∈ purchaseRows ps pps) :
    rr.1 ∈ ps ∧ rr.2 ∈ pps ∧ rr.1.Brand = rr.2.Brand ∧ 0 < rr.1.PurchasePrice := by
  unfold purchaseRows joinPP at h
  rw [List.mem_filter] at h
  obtain ⟨hj, hpp⟩ := h
  rw [List.mem_flatMap] at hj
  obtain ⟨p, hp, hm⟩ := hj
  rw [List.mem_map] at hm
  obtain ⟨w, hw, rfl⟩ := hm
  rw [List.mem_filter] at hw
  exact ⟨hp, hw.1, by simpa using hw.2, by simpa [pricePos] using hpp⟩

lemma mem_summary_origin (ps : List PurchaseRow) (pps : List PriceRow) (x : PKey × PurchaseAgg)
    (hx : x ∈ purchaseSummary ps pps) :
    ∃ rr ∈ purchaseRows ps pps, pkeyOf rr = x.1 := by
  unfold purchaseSummary summarize at hx
  rw [List.mem_map] at hx
  obtain ⟨k, hk, rfl⟩ := hx
  rw [List.mem_dedup, List.mem_map] at hk
  obtain ⟨rr, hrr, hkey⟩ := hk
  exact ⟨rr, hrr, hkey⟩

lemma mem_summary_exists (ps : List PurchaseRow) (pps : List PriceRow) (p : PurchaseRow)
    (w : PriceRow) (hp : p ∈ ps) (hw : w ∈ pps) (hb : p.Brand = w.Brand)
    (hpp : 0 < p.PurchasePrice) :
    ∃ x ∈ purchaseSummary ps pps, x.1 = pkeyOf (p, w) := by
  have hrr : (p, w) ∈ purchaseRows ps pps := by
    unfold purchaseRows joinPP
    rw [List.mem_filter]
    refine ⟨?_, by simpa [pricePos] using hpp⟩
    rw [List.mem_flatMap]
    exact ⟨p, hp, List.mem_map.mpr ⟨w, List.mem_filter.mpr ⟨hw, by simpa using hb⟩, rfl⟩⟩
  unfold purchaseSummary summarize
  have hk : pkeyOf (p, w) ∈ ((purchaseRows ps pps).map pkeyOf).dedup :=
    List.mem_dedup.mpr (List.mem_map_of_mem pkeyOf hrr)
  exact ⟨_, List.mem_map_of_mem _ hk, rfl⟩

/-! ## Float-value lemmas -/

lemma fdiv_zero_nonfin (a : Int) : (fdiv a 0).isFinite = false := by
  unfold fdiv
  rw [if_pos rfl]
  by_cases h : a = 0
  · simp [h, FVal.isFinite]
  · by_cases h2 : 0 < a <;> simp [h, h2, FVal.isFinite]

lemma fmul100_isFinite (x : FVal) : (fmul100 x).isFinite = x.isFinite := by
  cases x <;> rfl

lemma fdiv_zero_num (t : Int) (ht : t ≠ 0) : fdiv 0 t = FVal.fin 0 := by
  unfold fdiv
  rw [if_neg ht]
  norm_num

lemma fdiv_neg_zero (a : Int) (ha : a < 0) : fdiv a 0 = FVal.ninf := by
  unfold fdiv
  rw [if_pos rfl, if_neg (by omega), if_neg (by omega)]

/-! ## Concrete table instances used by witnesses and counterexamples -/

def exPurchases1 : List PurchaseRow := [⟨1, some " VendorX ", 101, "d", 5, 10, 100⟩]

def exPrices1 : List PriceRow := [⟨101, 750, 12⟩]

def exSales1 : List SaleRow := [⟨1, 101, 8, 7, 96, 3⟩]

def exInvoices1 : List InvoiceRow := [⟨1, 5⟩]

def exPurchases2 : List PurchaseRow := [⟨2, some "B", 20, "e", 3, 4, 50⟩]

def exPrices2 : List PriceRow := [⟨20, 700, 9⟩]

def exPurchases3 : List PurchaseRow := [⟨3, some "C", 30, "f", 2, 0, 0⟩]

def exPrices3 : List PriceRow := [⟨30, 1, 1⟩]

def exPurchases4 : List PurchaseRow := [⟨4, some "D", 40, "g", 5, 2, 100⟩]

/-- Brand 40 occurs twice, with the same Volume and Price. -/
def exPrices4 : List PriceRow := [⟨40, 750, 12⟩, ⟨40, 750, 12⟩]

def exPurchases5 : List PurchaseRow := [⟨5, some "E", 50, "h", 0, 1, 10⟩]

def exPrices5 : List PriceRow := [⟨50, 1, 1⟩]

def exPurchases6 : List PurchaseRow := [⟨6, none, 60, "i", 5, 1, 10⟩]

def exPrices6 : List PriceRow := [⟨60, 1, 2⟩]

/-- Brand 70 is absent from the purchase_prices table used with it. -/
def exPurchases7 : List PurchaseRow := [⟨7, some "G", 70, "j", 5, 1, 10⟩]

lemma ex1_ne : vendorCleaned exPurchases1 exPrices1 exSales1 exInvoices1 ≠ [] := by decide

lemma ex2_ne : vendorCleaned exPurchases2 exPrices2 [] [] ≠ [] := by decide

lemma ex3_ne : vendorCleaned exPurchases3 exPrices3 [] [] ≠ [] := by decide

lemma ex6_ne : vendorCleaned exPurchases6 exPrices6 [] [] ≠ [] := by decide

/-! ## The claims -/

/-- C1 (counterexample): with a brand occurring twice in `purchase_prices`
(same Volume and Price), the single output row of the pair `(4, 40)` carries
twice the raw dollar sum, so TotalPurchaseDollars for `(V, B)` does not equal
the sum of Dollars over the matching Purchase rows with positive price. -/
theorem C1_counterexample :
    ¬(∀ r ∈ vendorCleaned exPurchases4 exPrices4 [] [],
      r.VendorNumber = 4 ∧ r.Brand = 40 →
        r.totalpurchasedollars = ((exPurchases4.filter (fun p =>
          decide (p.VendorNumber = 4 ∧ p.Brand = 40 ∧ 0 < p.PurchasePrice))).map
          (fun p => p.Dollars)).sum) := by decide

/-- C1 (corrected): provided brand `b` occurs exactly once in
`purchase_prices`, the sum of TotalPurchaseDollars over all output rows with
`VendorNumber = v` and `Brand = b` equals the sum of Dollars over all
Purchase rows with that vendor, that brand, and `PurchasePrice > 0` — and
likewise for TotalPurchaseQuantity and Quantity.  (The original claim fails
when the brand occurs zero or several times in the reference table, and the
output may split a pair over several rows keyed by Description and price.) -/
theorem C1_theorem (ps : List PurchaseRow) (pps : List PriceRow) (ss : List SaleRow)
    (inv : List InvoiceRow) (v b : Int)
    (huniq : (pps.filter (fun w => decide (w.Brand = b))).length = 1) :
    (((vendorCleaned ps pps ss inv).filter
        (fun r => decide (r.VendorNumber = v ∧ r.Brand = b))).map
      (fun r => r.totalpurchasedollars)).sum =
      ((ps.filter (fun p => decide (p.VendorNumber = v ∧ p.Brand = b ∧
        0 < p.PurchasePrice))).map (fun p => p.Dollars)).sum ∧
    (((vendorCleaned ps pps ss inv).filter
        (fun r => decide (r.VendorNumber = v ∧ r.Brand = b))).map
      (fun r => r.totalpurchasequantity)).sum =
      ((ps.filter (fun p => decide (p.VendorNumber = v ∧ p.Brand = b ∧
        0 < p.PurchasePrice))).map (fun p => p.Quantity)).sum := by
  constructor
  · rw [sum_vc_dollars, huniq]
    simp
  · rw [sum_vc_quantity, huniq]
    simp

/-- C1 (witness): the corrected claim at a concrete database. -/
theorem C1_witness :
    (((vendorCleaned exPurchases1 exPrices1 exSales1 exInvoices1).filter
        (fun r => decide (r.VendorNumber = 1 ∧ r.Brand = 101))).map
      (fun r => r.totalpurchasedollars)).sum =
      ((exPurchases1.filter (fun p => decide (p.VendorNumber = 1 ∧ p.Brand = 101 ∧
        0 < p.PurchasePrice))).map (fun p => p.Dollars)).sum ∧
    (((vendorCleaned exPurchases1 exPrices1 exSales1 exInvoices1).filter
        (fun r => decide (r.VendorNumber = 1 ∧ r.Brand = 101))).map
      (fun r => r.totalpurchasequantity)).sum =
      ((exPurchases1.filter (fun p => decide (p.VendorNumber = 1 ∧ p.Brand = 101 ∧
        0 < p.PurchasePrice))).map (fun p => p.Quantity)).sum :=
  C1_theorem exPurchases1 exPrices1 exSales1 exInvoices1 1 101 (by decide)

/-- C2 (counterexample): a purchase row with positive price whose brand is
absent from `purchase_prices` is dropped by the inner join, so its
`(VendorNumber, Brand)` pair does not appear in the output. -/
theorem C2_counterexample :
    ¬(∀ p ∈ exPurchases7, 0 < p.PurchasePrice →
      ∃ r ∈ vendorCleaned exPurchases7 [] [] [],
        r.VendorNumber = p.VendorNumber ∧ r.Brand = p.Brand) := by decide

/-- C2 (corrected): every `(VendorNumber, Brand)` pair with at least one
Purchase row with `PurchasePrice > 0` **whose brand occurs in
`purchase_prices`** appears in the output. -/
theorem C2_theorem (ps : List PurchaseRow) (pps : List PriceRow) (ss : List SaleRow)
    (inv : List InvoiceRow) (p : PurchaseRow) (w : PriceRow) (hp : p ∈ ps) (hw : w ∈ pps)
    (hb : p.Brand = w.Brand) (hpp : 0 < p.PurchasePrice) :
    ∃ r ∈ vendorCleaned ps pps ss inv,
      r.VendorNumber = p.VendorNumber ∧ r.Brand = p.Brand := by
  obtain ⟨x, hx, hkey⟩ := mem_summary_exists ps pps p w hp hw hb hpp
  refine ⟨transformRow (buildRow ss inv x),
    (mem_vendorCleaned_iff ps pps ss inv _).mpr ⟨x, hx, rfl⟩, ?_, ?_⟩
  · rw [out_VendorNumber, hkey]
    rfl
  · rw [out_Brand, hkey]
    rfl

/-- C2 (witness): the corrected claim at a concrete database. -/
theorem C2_witness :
    ∃ r ∈ vendorCleaned exPurchases1 exPrices1 exSales1 exInvoices1,
      r.VendorNumber = 1 ∧ r.Brand = 101 :=
  C2_theorem exPurchases1 exPrices1 exSales1 exInvoices1
    ⟨1, some " VendorX ", 101, "d", 5, 10, 100⟩ ⟨101, 750, 12⟩
    (by decide) (by decide) rfl (by decide)

/-- C3 (confirmed): every output row's FreightCost equals the sum of Freight
over the Invoice rows of its vendor (hence all rows of one vendor carry the
identical value; a vendor with no invoices gets the empty sum 0). -/
theorem C3_theorem (ps : List PurchaseRow) (pps : List PriceRow) (ss : List SaleRow)
    (inv : List InvoiceRow) (r : OutRow) (hr : r ∈ vendorCleaned ps pps ss inv) :
    r.freightcost = ((inv.filter (fun i => decide (i.VendorNumber = r.VendorNumber))).map
      (fun i => i.Freight)).sum := by
  obtain ⟨x, hx, rfl⟩ := (mem_vendorCleaned_iff ps pps ss inv r).mp hr
  rw [out_freightcost, out_VendorNumber]
  rfl

/-- C3 (witness): the claim at a concrete database. -/
theorem C3_witness :
    ((vendorCleaned exPurchases1 exPrices1 exSales1 exInvoices1).head ex1_ne).freightcost =
      ((exInvoices1.filter (fun i => decide (i.VendorNumber =
        ((vendorCleaned exPurchases1 exPrices1 exSales1 exInvoices1).head
          ex1_ne).VendorNumber))).map (fun i => i.Freight)).sum :=
  C3_theorem exPurchases1 exPrices1 exSales1 exInvoices1 _ (List.head_mem ex1_ne)

/-- C4 (confirmed): an output row with no matching Sale rows has all four
sales aggregates equal to 0 (not null), and a row of a vendor with no
Invoice rows has FreightCost 0. -/
theorem C4_theorem (ps : List PurchaseRow) (pps : List PriceRow) (ss : List SaleRow)
    (inv : List InvoiceRow) (r : OutRow) (hr : r ∈ vendorCleaned ps pps ss inv) :
    ((ss.filter (fun s => decide (s.VendorNo = r.VendorNumber ∧ s.Brand = r.Brand))).isEmpty →
      r.totalsalesquantity = 0 ∧ r.totalsalesprice = 0 ∧ r.totalsalesdollars = 0 ∧
        r.totalexcisetax = 0) ∧
    ((inv.filter (fun i => decide (i.VendorNumber = r.VendorNumber))).isEmpty →
      r.freightcost = 0) := by
  obtain ⟨x, hx, rfl⟩ := (mem_vendorCleaned_iff ps pps ss inv r).mp hr
  constructor
  · intro hempty
    rw [out_VendorNumber, out_Brand] at hempty
    rw [List.isEmpty_eq_true] at hempty
    have hsf : salesFor ss x.1.VendorNumber x.1.Brand = [] := hempty
    refine ⟨?_, ?_, ?_, ?_⟩
    · rw [out_tsq, hsf]
      rfl
    · rw [out_tsp, hsf]
      rfl
    · rw [out_tsd, hsf]
      rfl
    · rw [out_tax, hsf]
      rfl
  · intro hempty
    rw [out_VendorNumber] at hempty
    rw [List.isEmpty_eq_true] at hempty
    have hff : freightFor inv x.1.VendorNumber = [] := hempty
    rw [out_freightcost, hff]
    rfl

/-- C4 (witness): the claim at a concrete database with no sales and no
invoices. -/
theorem C4_witness :
    ((vendorCleaned exPurchases2 exPrices2 [] []).head ex2_ne).totalsalesquantity = 0 ∧
    ((vendorCleaned exPurchases2 exPrices2 [] []).head ex2_ne).totalsalesprice = 0 ∧
    ((vendorCleaned exPurchases2 exPrices2 [] []).head ex2_ne).totalsalesdollars = 0 ∧
    ((vendorCleaned exPurchases2 exPrices2 [] []).head ex2_ne).totalexcisetax = 0 ∧
    ((vendorCleaned exPurchases2 exPrices2 [] []).head ex2_ne).freightcost = 0 := by
  have h := C4_theorem exPurchases2 exPrices2 [] [] _ (List.head_mem ex2_ne)
  obtain ⟨h1, h2, h3, h4⟩ := h.1 (by decide)
  exact ⟨h1, h2, h3, h4, h.2 (by decide)⟩

/-- C5 (confirmed): a `(VendorNumber, Brand)` pair all of whose Purchase rows
have `PurchasePrice ≤ 0` has no output row. -/
theorem C5_theorem (ps : List PurchaseRow) (pps : List PriceRow) (ss : List SaleRow)
    (inv : List InvoiceRow) (v b : Int)
    (hall : ∀ p ∈ ps, p.VendorNumber = v → p.Brand = b → p.PurchasePrice ≤ 0) :
    ∀ r ∈ vendorCleaned ps pps ss inv, ¬(r.VendorNumber = v ∧ r.Brand = b) := by
  intro r hr hvb
  obtain ⟨x, hx, rfl⟩ := (mem_vendorCleaned_iff ps pps ss inv r).mp hr
  obtain ⟨h1, h2⟩ := hvb
  rw [out_VendorNumber] at h1
  rw [out_Brand] at h2
  obtain ⟨rr, hrr, hkey⟩ := mem_summary_origin ps pps x hx
  obtain ⟨hp, hw, hb, hpp⟩ := mem_purchaseRows_origin ps pps rr hrr
  have e1 : rr.1.VendorNumber = v := by
    rw [← h1, ← hkey]
    rfl
  have e2 : rr.1.Brand = b := by
    rw [← h2, ← hkey]
    rfl
  exact absurd hpp (not_lt.mpr (hall rr.1 hp e1 e2))

/-- C5 (witness): the claim at a concrete database whose only purchase row
for the pair `(5, 50)` has `PurchasePrice = 0`. -/
theorem C5_witness :
    ¬∃ r ∈ vendorCleaned exPurchases5 exPrices5 [] [],
      r.VendorNumber = 5 ∧ r.Brand = 50 := by
  rintro ⟨r, hr, hvb⟩
  exact C5_theorem exPurchases5 exPrices5 [] [] 5 50 (by decide) r hr hvb

/-- C6 (counterexample): for a purchase group with a null VendorName the
persisted VendorName is null (pandas `.str.strip()` maps the filled-in
number 0 back to NaN), not the number 0. -/
theorem C6_counterexample :
    ¬(∀ r ∈ vendorCleaned exPurchases6 exPrices6 [] [], r.VendorName = CellVal.num 0) ∧
    (vendorCleaned exPurchases6 exPrices6 [] []).map (fun r => r.VendorName) =
      [CellVal.null] :=
  ⟨by decide, by decide⟩

/-- C6 (corrected): the `fillna(0)` step does replace every null in every
column — including the object column VendorName — with the number 0; but the
subsequent `.str.strip()` turns the non-string cell back into null, so a
purchase group whose VendorName is null yields an output row whose persisted
VendorName is null, not 0. -/
theorem C6_theorem :
    (∀ w : VRow, w.VendorName = none → (fillnaRow w).VendorName = CellVal.num 0) ∧
    (∀ w : VRow, w.totalsalesdollars = none → (fillnaRow w).totalsalesdollars = 0) ∧
    (∀ (ps : List PurchaseRow) (pps : List PriceRow) (ss : List SaleRow)
      (inv : List InvoiceRow), ∀ r ∈ vendorCleaned ps pps ss inv,
        (∀ p ∈ ps, p.VendorName = none) → r.VendorName = CellVal.null) := by
  refine ⟨fun w hw => ?_, fun w hw => ?_, fun ps pps ss inv r hr hnull => ?_⟩
  · show fillnaName w.VendorName = CellVal.num 0
    rw [hw]
    rfl
  · show fillna0 w.totalsalesdollars = 0
    rw [hw]
    rfl
  · obtain ⟨x, hx, rfl⟩ := (mem_vendorCleaned_iff ps pps ss inv r).mp hr
    rw [out_VendorName]
    obtain ⟨rr, hrr, hkey⟩ := mem_summary_origin ps pps x hx
    obtain ⟨hp, _, _, _⟩ := mem_purchaseRows_origin ps pps rr hrr
    have hvn : x.1.VendorName = none := by
      rw [← hkey]
      exact hnull rr.1 hp
    rw [hvn]
    rfl

/-- C6 (witness): the corrected claim at a concrete database whose purchase
row has a null VendorName. -/
theorem C6_witness :
    ((vendorCleaned exPurchases6 exPrices6 [] []).head ex6_ne).VendorName = CellVal.null :=
  C6_theorem.2.2 exPurchases6 exPrices6 [] [] _ (List.head_mem ex6_ne) (by decide)

/-- C7 (confirmed): on every output row, a zero divisor makes the
corresponding derived metric non-finite (an infinity or NaN), never a finite
sentinel: TotalSalesDollars = 0 for ProfitMargin, TotalPurchaseQuantity = 0
for StockTurnover, TotalPurchaseDollars = 0 for SalesToPurchase (the script's
fourth metric column). -/
theorem C7_theorem (ps : List PurchaseRow) (pps : List PriceRow) (ss : List SaleRow)
    (inv : List InvoiceRow) (r : OutRow) (hr : r ∈ vendorCleaned ps pps ss inv) :
    (r.totalsalesdollars = 0 → r.ProfitMargin.isFinite = false) ∧
    (r.totalpurchasequantity = 0 → r.StockTurnover.isFinite = false) ∧
    (r.totalpurchasedollars = 0 → r.salesToPurchase.isFinite = false) := by
  obtain ⟨x, hx, rfl⟩ := (mem_vendorCleaned_iff ps pps ss inv r).mp hr
  refine ⟨fun h0 => ?_, fun h0 => ?_, fun h0 => ?_⟩
  · rw [transformRow_ProfitMargin, h0, fmul100_isFinite, fdiv_zero_nonfin]
  · rw [transformRow_StockTurnover, h0, fdiv_zero_nonfin]
  · rw [transformRow_sptq, h0, fdiv_zero_nonfin]

/-- C7 (witness): a concrete database where one output row has all three
divisors zero yields non-finite values for all three metrics. -/
theorem C7_witness :
    ((vendorCleaned exPurchases3 exPrices3 [] []).head ex3_ne).ProfitMargin.isFinite = false ∧
    ((vendorCleaned exPurchases3 exPrices3 [] []).head ex3_ne).StockTurnover.isFinite = false ∧
    ((vendorCleaned exPurchases3 exPrices3 [] []).head
      ex3_ne).salesToPurchase.isFinite = false := by
  have h := C7_theorem exPurchases3 exPrices3 [] [] _ (List.head_mem ex3_ne)
  exact ⟨h.1 (by decide), h.2.1 (by decide), h.2.2 (by decide)⟩

/-- C8 (confirmed): one run reads only the four source tables and replaces
`vendor_cleaned` wholesale, so running the job twice against unchanged source
data leaves exactly the state of one run — the pipeline is a deterministic
function of the four source tables. -/
theorem C8_theorem (db : Database) : runJob (runJob db) = runJob db := rfl

/-- C9 (confirmed): with `k` the number of `purchase_prices` rows of brand
`b` (all sharing one Volume and Price), the per-(V, B) output aggregates
count every matching purchase row exactly `k` times: summed over the output
rows of the pair, TotalPurchaseQuantity and TotalPurchaseDollars are `k`
times the raw sums — rows are silently dropped for `k = 0` and multiply
counted for `k ≥ 2`, and the sums match the raw Purchase table exactly when
`k = 1`. -/
theorem C9_theorem (ps : List PurchaseRow) (pps : List PriceRow) (ss : List SaleRow)
    (inv : List InvoiceRow) (v b vol pr : Int)
    (_hshare : ∀ w ∈ pps, w.Brand = b → w.Volume = vol ∧ w.Price = pr) :
    (((vendorCleaned ps pps ss inv).filter
        (fun r => decide (r.VendorNumber = v ∧ r.Brand = b))).map
      (fun r => r.totalpurchasequantity)).sum =
      ((pps.filter (fun w => decide (w.Brand = b))).length : Int) *
        ((ps.filter (fun p => decide (p.VendorNumber = v ∧ p.Brand = b ∧
          0 < p.PurchasePrice))).map (fun p => p.Quantity)).sum ∧
    (((vendorCleaned ps pps ss inv).filter
        (fun r => decide (r.VendorNumber = v ∧ r.Brand = b))).map
      (fun r => r.totalpurchasedollars)).sum =
      ((pps.filter (fun w => decide (w.Brand = b))).length : Int) *
        ((ps.filter (fun p => decide (p.VendorNumber = v ∧ p.Brand = b ∧
          0 < p.PurchasePrice))).map (fun p => p.Dollars)).sum :=
  ⟨sum_vc_quantity ps pps ss inv v b, sum_vc_dollars ps pps ss inv v b⟩

/-- C9 (witness): the claim at a concrete database whose brand occurs twice
in `purchase_prices` (`k = 2`). -/
theorem C9_witness :
    (((vendorCleaned exPurchases4 exPrices4 [] []).filter
        (fun r => decide (r.VendorNumber = 4 ∧ r.Brand = 40))).map
      (fun r => r.totalpurchasequantity)).sum =
      ((exPrices4.filter (fun w => decide (w.Brand = 40))).length : Int) *
        ((exPurchases4.filter (fun p => decide (p.VendorNumber = 4 ∧ p.Brand = 40 ∧
          0 < p.PurchasePrice))).map (fun p => p.Quantity)).sum ∧
    (((vendorCleaned exPurchases4 exPrices4 [] []).filter
        (fun r => decide (r.VendorNumber = 4 ∧ r.Brand = 40))).map
      (fun r => r.totalpurchasedollars)).sum =
      ((exPrices4.filter (fun w => decide (w.Brand = 40))).length : Int) *
        ((exPurchases4.filter (fun p => decide (p.VendorNumber = 4 ∧ p.Brand = 40 ∧
          0 < p.PurchasePrice))).map (fun p => p.Dollars)).sum :=
  C9_theorem exPurchases4 exPrices4 [] [] 4 40 750 12 (by decide)

/-- C10 (confirmed): on an output row with no matching Sale rows (sales
aggregates null-filled to 0), StockTurnover is 0 when
TotalPurchaseQuantity > 0, SalesToPurchase is 0 when
TotalPurchaseDollars > 0, and ProfitMargin is negative infinity when
TotalPurchaseDollars > 0 (GrossProfit = −TotalPurchaseDollars divided by
TotalSalesDollars = 0). -/
theorem C10_theorem (ps : List PurchaseRow) (pps : List PriceRow) (ss : List SaleRow)
    (inv : List InvoiceRow) (r : OutRow) (hr : r ∈ vendorCleaned ps pps ss inv)
    (hns : ss.filter (fun s => decide (s.VendorNo = r.VendorNumber ∧ s.Brand = r.Brand)) = []) :
    (0 < r.totalpurchasequantity → r.StockTurnover = FVal.fin 0) ∧
    (0 < r.totalpurchasedollars →
      r.salesToPurchase = FVal.fin 0 ∧ r.ProfitMargin = FVal.ninf) := by
  obtain ⟨x, hx, rfl⟩ := (mem_vendorCleaned_iff ps pps ss inv r).mp hr
  rw [out_VendorNumber, out_Brand] at hns
  have hsf : salesFor ss x.1.VendorNumber x.1.Brand = [] := hns
  have htsd : (transformRow (buildRow ss inv x)).totalsalesdollars = 0 := by
    rw [out_tsd, hsf]
    rfl
  have htsq : (transformRow (buildRow ss inv x)).totalsalesquantity = 0 := by
    rw [out_tsq, hsf]
    rfl
  constructor
  · intro hpos
    rw [transformRow_StockTurnover, htsq]
    exact fdiv_zero_num _ (by omega)
  · intro hpos
    constructor
    · rw [transformRow_sptq, htsd]
      exact fdiv_zero_num _ (by omega)
    · rw [transformRow_ProfitMargin, transformRow_GrossProfit, htsd,
        fdiv_neg_zero _ (by omega)]
      rfl

/-- C10 (witness): the claim at a concrete database with purchases but no
sales. -/
theorem C10_witness :
    ((vendorCleaned exPurchases2 exPrices2 [] []).head ex2_ne).StockTurnover = FVal.fin 0 ∧
    ((vendorCleaned exPurchases2 exPrices2 [] []).head ex2_ne).salesToPurchase = FVal.fin 0 ∧
    ((vendorCleaned exPurchases2 exPrices2 [] []).head ex2_ne).ProfitMargin = FVal.ninf := by
  have h := C10_theorem exPurchases2 exPrices2 [] [] _ (List.head_mem ex2_ne) (by decide)
  exact ⟨h.1 (by decide), (h.2 (by decide)).1, (h.2 (by decide)).2⟩

/-! ## Sanity checks: the worked scenario of the specification -/

example :
    (vendorCleaned [⟨1, some " VendorX ", 101, "d", 5, 10, 100⟩] [⟨101, 750, 12⟩]
        [⟨1, 101, 8, 7, 96, 3⟩] [⟨1, 5⟩]).map
      (fun r => (r.VendorNumber, r.Brand, r.totalpurchasequantity, r.totalpurchasedollars,
        r.totalsalesquantity, r.totalsalesdollars)) =
    [(1, 101, 10, 100, 8, 96)] := by decide

example :
    (vendorCleaned [⟨1, some " VendorX ", 101, "d", 5, 10, 100⟩] [⟨101, 750, 12⟩]
        [⟨1, 101, 8, 7, 96, 3⟩] [⟨1, 5⟩]).map
      (fun r => (r.freightcost, r.GrossProfit, r.totalsalesprice, r.totalexcisetax)) =
    [(5, -4, 7, 3)] := by decide

example :
    (vendorCleaned [⟨1, some " VendorX ", 101, "d", 5, 10, 100⟩] [⟨101, 750, 12⟩]
        [⟨1, 101, 8, 7, 96, 3⟩] [⟨1, 5⟩]).map (fun r => r.VendorName) =
    [CellVal.str "VendorX"] := by decide

example :
    (vendorCleaned [⟨6, none, 60, "i", 5, 1, 10⟩] [⟨60, 1, 2⟩] [] []).map
      (fun r => r.VendorName) = [CellVal.null] := by decide

end Vendor
